import Mathlib

/-!
Shallow embedding of the chat-bridge logic of the data-analysis-rbac-agent
repository: the server actions in frontend/src/app/actions.tsx
(continueTextConversation, continueConversation, checkAIAvailability) and the
client Chat component with stop support (streamResponse, handleStop,
handleSubmit), together with proofs of the behavioral claims about them.
-/

namespace ChatBridge

/-! ## Data model -/

/-- Role tag of a conversation message, as in the Message interface of
actions.tsx. -/
inductive Role where
  | user
  | assistant
  | system
deriving DecidableEq, Repr

/-- One turn of the conversation: role plus text content. -/
structure Message where
  role : Role
  content : String
deriving DecidableEq, Repr

/-- A JavaScript Error value as thrown by the bridge code: a name (for
example Error, TypeError, AbortError) and a message string. -/
structure JsError where
  name : String
  message : String
deriving DecidableEq, Repr

/-- The parsed JSON body of a chat response. Fields are optional because a
JavaScript object may lack any of them (an absent field reads as undefined). -/
structure ChatBody where
  response : Option String
  success : Option Bool
  error : Option String
  answer : Option String
deriving DecidableEq, Repr

/-- An HTTP response as seen through fetch: numeric status, status text, the
raw body text, and the outcome of response.json(), which rejects with an
error when the body is not valid JSON. -/
structure HttpResponse where
  status : Nat
  statusText : String
  bodyText : String
  json : Except JsError ChatBody

/-- The fetch Response.ok accessor: true exactly when the status is in the
2xx range 200..299. -/
def HttpResponse.ok (r : HttpResponse) : Bool :=
  decide (200 ≤ r.status ∧ r.status ≤ 299)

/-! ## Word reveal (streamResponse in the Chat component)

The reveal loop computes words = response.split(' ') and then, for each index
i in order, appends words[i] to the display, preceded by a single space when
i > 0, starting from the empty display. Strings are modelled as lists of
characters. -/

/-- JavaScript String.split with separator a single space: splits the
character list at every space, keeping empty fragments, so that the result is
never the empty list. -/
def splitSp : List Char → List (List Char)
  | [] => [[]]
  | c :: cs =>
    if c = ' ' then
      [] :: splitSp cs
    else
      match splitSp cs with
      | [] => [[c]]
      | w :: ws => (c :: w) :: ws

/-- Concatenation of the remaining words, each preceded by one space. -/
def joinTail : List (List Char) → List Char
  | [] => []
  | w :: ws => ' ' :: w ++ joinTail ws

/-- Join of a word list with single spaces between words. -/
def joinSp : List (List Char) → List Char
  | [] => []
  | w :: ws => w ++ joinTail ws

/-- The accumulation performed by the reveal loop of streamResponse: starting
from accumulator acc at loop index i, append each remaining word, preceded by
a space when the index is positive. -/
def revealAll : Nat → List Char → List (List Char) → List Char
  | _, acc, [] => acc
  | i, acc, w :: ws => revealAll (i + 1) (acc ++ (if 0 < i then ' ' :: w else w)) ws

/-- The final displayed text produced by streamResponse for a complete
response: split on single spaces, then run the reveal loop from index 0 and
the empty display. -/
def streamResponse (r : List Char) : List Char :=
  revealAll 0 [] (splitSp r)

/-! ## Server actions of actions.tsx (Groq HTTP variant) -/

/-- The JSON payload of the chat POST built by continueTextConversation:
message (the content of the last history entry), the model identifier, a
temperature of 0.7 and max_tokens of 1024. -/
structure ChatPayload where
  message : String
  model : String
  temperature : Rat
  max_tokens : Nat
deriving DecidableEq, Repr

/-- An outbound HTTP request: target URL, method and JSON payload. -/
structure ChatRequest where
  url : String
  method : String
  payload : ChatPayload
deriving DecidableEq, Repr

/-- The query-extraction step, reading messages[messages.length - 1].content
unguarded: the last element for a non-empty history, an undefined member
access (none) for the empty history. -/
def lastContent? (messages : List Message) : Option String :=
  (messages[messages.length - 1]?).map Message.content

/-- The request construction of continueTextConversation: one fetch of
baseUrl ++ /api/chat with the JSON payload. On the empty history the member
access .content on undefined throws a TypeError before any request is made. -/
def chatRequest (baseUrl model : String) (messages : List Message) :
    Except JsError ChatRequest :=
  match lastContent? messages with
  | none =>
      Except.error { name := "TypeError", message := "Cannot read properties of undefined" }
  | some q =>
      Except.ok { url := baseUrl ++ "/api/chat", method := "POST",
                  payload := { message := q, model := model, temperature := 7/10,
                               max_tokens := 1024 } }

/-- The list of network requests continueTextConversation issues: exactly one
fetch when the payload can be built, none otherwise; there is no retry
loop in the source. -/
def chatRequestsSent (baseUrl model : String) (messages : List Message) : List ChatRequest :=
  match chatRequest baseUrl model messages with
  | Except.error _ => []
  | Except.ok req => [req]

/-- Response handling of continueTextConversation: on a non-ok status it
throws an Error whose message is the text Groq API error followed by the
status text alone (the body is never read); on an ok status it awaits
response.json() (which may reject) and returns the response field of the
body, which may be absent. -/
def handleChatResponse (r : HttpResponse) : Except JsError (Option String) :=
  if r.ok then
    match r.json with
    | Except.error e => Except.error e
    | Except.ok data => Except.ok data.response
  else
    Except.error { name := "Error", message := "Groq API error: " ++ r.statusText }

/-- Behavior of continueTextConversation once the fetch settles: the value of
the try block, except that the catch block logs any thrown error via
console.error and rethrows it. The first component is the returned or thrown
value, the second the log lines produced. A transport failure arrives as an
error fetch outcome. -/
def continueTextConversation (fetchResult : Except JsError HttpResponse) :
    Except JsError (Option String) × List String :=
  match fetchResult with
  | Except.error e => (Except.error e, ["Error calling Groq API: " ++ e.message])
  | Except.ok r =>
      match handleChatResponse r with
      | Except.error e => (Except.error e, ["Error calling Groq API: " ++ e.message])
      | Except.ok v => (Except.ok v, [])

/-- The fixed fallback assistant message of the UI error paths. -/
def fallbackMessage : String := "Sorry, I encountered an error. Please try again."

/-- The fixed marker recorded when a request is stopped by the user. -/
def stopMarker : String := "Query stopped by user."

/-- JavaScript rendering of a possibly-undefined string value, used where the
code stores data.response directly as message content. -/
def jsStr : Option String → String
  | some s => s
  | none => "undefined"

/-- continueConversation (the Gen-UI variant in actions.tsx): the same fetch,
but the catch block replaces every thrown error (transport failure, non-ok
status, JSON parse rejection, and the TypeError of the empty history alike)
by the fixed fallback assistant message; in every case the input history is
returned with exactly one new assistant message appended. The error fetch
outcome covers any exception raised inside the try block before the response
is consumed. -/
def continueConversation (history : List Message) (fetchResult : Except JsError HttpResponse) :
    List Message :=
  match fetchResult with
  | Except.error _ => history ++ [{ role := Role.assistant, content := fallbackMessage }]
  | Except.ok r =>
      if r.ok then
        match r.json with
        | Except.error _ => history ++ [{ role := Role.assistant, content := fallbackMessage }]
        | Except.ok data =>
            history ++ [{ role := Role.assistant, content := jsStr data.response }]
      else
        history ++ [{ role := Role.assistant, content := fallbackMessage }]

/-- checkAIAvailability: fetch baseUrl ++ /health with GET inside a try
block; return response.ok, and return false from the catch block on any
transport failure. The result type records that the function itself never
throws: every outcome is an ok value. -/
def checkAIAvailability (fetchResult : Except JsError HttpResponse) : Except JsError Bool :=
  match fetchResult with
  | Except.ok r => Except.ok r.ok
  | Except.error _ => Except.ok false

/-! ## The Chat component with stop support -/

/-- The UI state consulted by the submit guard of the Chat component. -/
structure ChatState where
  messages : List Message
  input : String
  isLoading : Bool
  streaming : List Char
  ctrlActive : Bool
deriving DecidableEq, Repr

/-- The synchronous prefix of handleSubmit, up to the point where the request
fires: when the trimmed input is empty or a request is already in flight it
returns unchanged and fires no request; otherwise it appends the user
message, clears the input, sets the loading flag, clears the streaming
display, installs a fresh abort controller and fires the request with the new
history (returned as the second component). -/
def submitStart (s : ChatState) : ChatState × Option (List Message) :=
  if s.input.trim = "" ∨ s.isLoading = true then
    (s, none)
  else
    let newMessages := s.messages ++ [{ role := Role.user, content := s.input.trim }]
    ({ messages := newMessages, input := "", isLoading := true, streaming := [],
       ctrlActive := true }, some newMessages)

/-- The catch branch of handleSubmit: an AbortError records the fixed stop
marker, any other error records the fixed fallback message. -/
def submitCatch (newMessages : List Message) (err : JsError) : List Message :=
  if err.name = "AbortError" then
    newMessages ++ [{ role := Role.assistant, content := stopMarker }]
  else
    newMessages ++ [{ role := Role.assistant, content := fallbackMessage }]

/-- The outcome of awaiting continueTextConversation and the reveal: either a
response string or a thrown error. -/
inductive SubmitOutcome where
  | success (response : String)
  | failure (err : JsError)
deriving DecidableEq, Repr

/-- The completion of handleSubmit: on success the full response is appended
as the assistant message; on failure the catch branch runs. -/
def submitFinish (newMessages : List Message) (out : SubmitOutcome) : List Message :=
  match out with
  | SubmitOutcome.success r => newMessages ++ [{ role := Role.assistant, content := r }]
  | SubmitOutcome.failure e => submitCatch newMessages e

/-! ## Stop handling and the reveal loop as a trace -/

/-- Whether the fetch performed by continueTextConversation is created with
the signal of the abort controller installed by handleSubmit. In actions.tsx
the fetch options contain only method, headers and body: no signal is passed,
so this is false. -/
def fetchSignalConnected : Bool := false

/-- The mutable state observed by the reveal loop and the stop handler:
the streaming display, the loading flag, whether a controller is installed,
whether abort() has been called on it, and whether the network request itself
was aborted. -/
structure RevealState where
  streaming : List Char
  isLoading : Bool
  ctrlActive : Bool
  ctrlAborted : Bool
  fetchAborted : Bool
deriving DecidableEq, Repr

/-- handleStop: when a controller is installed, call abort() on it (which
aborts the network request only if the fetch was created with its signal),
clear the controller, clear the loading flag and clear the streaming
display. -/
def handleStop (s : RevealState) : RevealState :=
  if s.ctrlActive then
    { streaming := [], isLoading := false, ctrlActive := false, ctrlAborted := true,
      fetchAborted := s.fetchAborted || fetchSignalConnected }
  else s

/-- One iteration of the reveal loop of streamResponse at index i: appends
word i, preceded by a space when i is positive, to the streaming display. The
loop body consults no cancellation flag, so the step is unconditional. -/
def revealStep (words : List (List Char)) (i : Nat) (s : RevealState) : RevealState :=
  { s with streaming :=
      s.streaming ++ (if 0 < i then ' ' :: words.getD i [] else words.getD i []) }

/-- Events interleaved on the UI event loop while a reveal is in progress:
the reveal steps of the loop and user stop actions. -/
inductive UiEvent where
  | step (i : Nat)
  | stop
deriving DecidableEq, Repr

/-- Execution of a schedule of reveal steps and stop actions. -/
def runEvents (words : List (List Char)) : List UiEvent → RevealState → RevealState
  | [], s => s
  | UiEvent.step i :: rest, s => runEvents words rest (revealStep words i s)
  | UiEvent.stop :: rest, s => runEvents words rest (handleStop s)

/-- The reveal state at the moment handleSubmit enters the try block:
loading, empty display, fresh controller. -/
def initialReveal : RevealState :=
  { streaming := [], isLoading := true, ctrlActive := true, ctrlAborted := false,
    fetchAborted := false }

/-- The schedule in which the user presses stop after k of the n reveal steps
have run; the loop, which checks no flag, then continues with the remaining
steps. -/
def stopAfter (n k : Nat) : List UiEvent :=
  ((List.range k).map UiEvent.step) ++ [UiEvent.stop] ++
    (((List.range n).drop k).map UiEvent.step)

/-- The tail of handleSubmit around the reveal: the awaited promise rejects
with an AbortError only if the network request itself was aborted; otherwise
the try block completes and appends the full response as the assistant
message. -/
def submitAfterReveal (newMessages : List Message) (response : List Char)
    (final : RevealState) : List Message :=
  if final.fetchAborted then
    submitCatch newMessages { name := "AbortError", message := "The user aborted a request." }
  else
    newMessages ++ [{ role := Role.assistant, content := String.mk response }]

/-! ## Substring helper and concrete responses -/

/-- Decidable check that pat is a prefix of the character list. -/
def strPrefixAt : List Char → List Char → Bool
  | [], _ => true
  | _ :: _, [] => false
  | a :: xs, b :: ys => a == b && strPrefixAt xs ys

/-- Decidable check that pat occurs somewhere inside the character list. -/
def listContainsSub (pat : List Char) : List Char → Bool
  | [] => pat.isEmpty
  | c :: t => strPrefixAt pat (c :: t) || listContainsSub pat t

/-- Decidable substring check on strings. -/
def strContains (s pat : String) : Bool :=
  listContainsSub pat.toList s.toList

/-- A concrete HTTP 500 response with status text and a diagnostic body. -/
def resp500 : HttpResponse :=
  { status := 500, statusText := "Internal Server Error", bodyText := "upstream exploded",
    json := Except.error { name := "SyntaxError", message := "Unexpected token" } }

/-- A concrete 2xx response whose JSON body carries success = false and a
backend-supplied error message alongside a response field. -/
def respSuccessFalse : HttpResponse :=
  { status := 200, statusText := "OK", bodyText := "a JSON body with success false",
    json := Except.ok { response := some "ignored result", success := some false,
                        error := some "permission denied", answer := some "the answer" } }

/-! ## Helper lemmas -/

/-- splitSp never returns the empty list of words. -/
theorem splitSp_shape (l : List Char) : ∃ w ws, splitSp l = w :: ws := by
  cases l with
  | nil => exact ⟨[], [], rfl⟩
  | cons c cs =>
    by_cases hc : c = ' '
    · exact ⟨[], splitSp cs, by simp [splitSp, hc]⟩
    · obtain ⟨w, ws, hw⟩ : ∃ w ws, splitSp cs = w :: ws := by
        cases cs with
        | nil => exact ⟨[], [], rfl⟩
        | cons d ds =>
          by_cases hd : d = ' '
          · exact ⟨[], splitSp ds, by simp [splitSp, hd]⟩
          · cases hse : splitSp ds with
            | nil => exact ⟨[d], [], by simp [splitSp, hd, hse]⟩
            | cons w ws => exact ⟨d :: w, ws, by simp [splitSp, hd, hse]⟩
      exact ⟨c :: w, ws, by simp [splitSp, hc, hw]⟩

/-- Once the loop index is positive, the reveal loop appends exactly the
space-separated concatenation of the remaining words. -/
theorem revealAll_pos (ws : List (List Char)) :
    ∀ (acc : List Char) (i : Nat), 0 < i →
      revealAll i acc ws = acc ++ joinTail ws := by
  induction ws with
  | nil => intro acc i _; simp [revealAll, joinTail]
  | cons w ws ih =>
    intro acc i hi
    simp only [revealAll, if_pos hi, joinTail]
    rw [ih (acc ++ (' ' :: w)) (i + 1) (Nat.succ_pos i)]
    simp

/-- The reveal loop started at index 0 on the empty display produces the
single-space join of the word list. -/
theorem revealAll_zero (ws : List (List Char)) (w : List Char) :
    revealAll 0 [] (w :: ws) = joinSp (w :: ws) := by
  have h : revealAll 0 [] (w :: ws) = revealAll 1 w ws := by
    simp [revealAll]
  rw [h, revealAll_pos ws w 1 Nat.one_pos, joinSp]

/-- Splitting on single spaces and rejoining with single spaces is the
identity on character lists. -/
theorem joinSp_splitSp (l : List Char) : joinSp (splitSp l) = l := by
  induction l with
  | nil => rfl
  | cons c cs ih =>
    by_cases hc : c = ' '
    · obtain ⟨w, ws, hw⟩ := splitSp_shape cs
      subst hc
      simp only [splitSp, if_pos rfl, hw, joinSp, List.nil_append]
      rw [hw, joinSp] at ih
      simp [joinTail, ih]
    · obtain ⟨w, ws, hw⟩ := splitSp_shape cs
      simp only [splitSp, if_neg hc, hw, joinSp, List.cons_append]
      rw [hw, joinSp] at ih
      simp [ih]

/-- Query extraction at index length - 1 yields the content of the final
message of any non-empty history. -/
theorem lastContent?_concat (p : List Message) (m : Message) :
    lastContent? (p ++ [m]) = some m.content := by
  simp [lastContent?]

/-! ## Claim theorems -/

/-- C1: for every response string R returned by the backend, the word-reveal
process (split R on single spaces, then append the words one at a time with
single-space joins) produces a final displayed string equal to R; no word is
dropped or reordered. -/
theorem wordReveal_roundTrip (r : List Char) : streamResponse r = r := by
  obtain ⟨w, ws, hw⟩ := splitSp_shape r
  rw [streamResponse, hw, revealAll_zero, ← hw, joinSp_splitSp]

/-- C3: checkAvailability returns an ok boolean for every fetch outcome
(never throws or rejects), and the boolean is true if and only if the GET to
the health endpoint yielded a response with a 2xx status; any transport
failure or non-success status yields false. -/
theorem checkAvailability_total_and_iff (fr : Except JsError HttpResponse) :
    (∃ b : Bool, checkAIAvailability fr = Except.ok b) ∧
    (checkAIAvailability fr = Except.ok true ↔
      ∃ r : HttpResponse, fr = Except.ok r ∧ 200 ≤ r.status ∧ r.status ≤ 299) := by
  cases fr with
  | error e =>
      refine ⟨⟨false, rfl⟩, ?_⟩
      simp [checkAIAvailability]
  | ok r =>
      refine ⟨⟨r.ok, rfl⟩, ?_⟩
      simp [checkAIAvailability, HttpResponse.ok]

/-- C5: for every non-empty message history (written p ++ [m]), submitQuery
issues exactly one POST request to baseUrl ++ /api/chat whose payload carries
exactly the content of the final message m (prior turns p are not
transmitted), the configured model identifier, temperature 0.7 and
max_tokens 1024. -/
theorem submitQuery_payload_exact (p : List Message) (m : Message) (baseUrl model : String) :
    chatRequestsSent baseUrl model (p ++ [m]) =
      [{ url := baseUrl ++ "/api/chat", method := "POST",
         payload := { message := m.content, model := model, temperature := 7/10,
                      max_tokens := 1024 } }] := by
  simp [chatRequestsSent, chatRequest, lastContent?_concat p m]

/-- C10: the extraction of the outbound query reads index length - 1 of the
history unguarded: on the empty history the access is undefined (none), and
on every non-empty history p ++ [m] it is defined and yields the content of
the final message, so non-emptiness is exactly what makes the step safe. -/
theorem queryExtraction_requires_nonempty :
    lastContent? ([] : List Message) = none ∧
      ∀ (p : List Message) (m : Message), lastContent? (p ++ [m]) = some m.content :=
  ⟨rfl, lastContent?_concat⟩

/-- C8: whenever a submitQuery call is outstanding (the loading flag is set),
a further submission attempt is ignored: handleSubmit returns with the state
unchanged and no request is fired, so at most one chat request is in flight
at any time. -/
theorem singleInFlight (s : ChatState) (h : s.isLoading = true) :
    submitStart s = (s, none) := by
  simp [submitStart, h]

/-- Witness for singleInFlight at a concrete loading state. -/
theorem singleInFlight_witness :
    submitStart { messages := [], input := "next question", isLoading := true,
                  streaming := [], ctrlActive := true } =
      ({ messages := [], input := "next question", isLoading := true,
         streaming := [], ctrlActive := true }, none) :=
  singleInFlight
    { messages := [], input := "next question", isLoading := true,
      streaming := [], ctrlActive := true } rfl

/-- C6: for every failure of the chat request other than an AbortError (user
cancellation), the assistant entry the UI appends is exactly the fixed
string, which does not depend on the error, so raw error detail is never part
of the displayed message. -/
theorem errorFallback_fixed (newMessages : List Message) (err : JsError)
    (h : err.name ≠ "AbortError") :
    submitCatch newMessages err =
      newMessages ++ [{ role := Role.assistant, content := fallbackMessage }] ∧
    fallbackMessage = "Sorry, I encountered an error. Please try again." := by
  refine ⟨?_, rfl⟩
  simp [submitCatch, h]

/-- Witness for errorFallback_fixed at a concrete backend error. -/
theorem errorFallback_fixed_witness :
    submitCatch [] { name := "Error", message := "Groq API error: Service Unavailable" } =
      [{ role := Role.assistant, content := fallbackMessage }] :=
  (errorFallback_fixed [] { name := "Error", message := "Groq API error: Service Unavailable" }
    (by decide)).1

/-- C9: every operation is append-only: continueConversation returns the
input history unchanged with exactly one new assistant message appended, for
every fetch outcome, and the completion of handleSubmit does the same for
every success, failure or cancellation outcome. -/
theorem conversation_append_only :
    (∀ (history : List Message) (fetchResult : Except JsError HttpResponse),
        ∃ c : String, continueConversation history fetchResult =
          history ++ [{ role := Role.assistant, content := c }]) ∧
    (∀ (newMessages : List Message) (out : SubmitOutcome),
        ∃ c : String, submitFinish newMessages out =
          newMessages ++ [{ role := Role.assistant, content := c }]) := by
  constructor
  · intro history fr
    cases fr with
    | error e => exact ⟨fallbackMessage, rfl⟩
    | ok r =>
        by_cases hok : r.ok = true
        · cases hj : r.json with
          | error e => exact ⟨fallbackMessage, by simp [continueConversation, hok, hj]⟩
          | ok data => exact ⟨jsStr data.response, by simp [continueConversation, hok, hj]⟩
        · exact ⟨fallbackMessage, by simp [continueConversation, hok]⟩
  · intro newMessages out
    cases out with
    | success r => exact ⟨r, rfl⟩
    | failure e =>
        by_cases hn : e.name = "AbortError"
        · exact ⟨stopMarker, by simp [submitFinish, submitCatch, hn]⟩
        · exact ⟨fallbackMessage, by simp [submitFinish, submitCatch, hn]⟩

/-- C2 counterexample: at a concrete 500 response, submitQuery fails with an
error whose message carries only the status text: the decimal status code 500
does not occur in it, and the diagnostic body is neither read nor logged (the
single log line does not contain it), contrary to the claim that the body is
captured and the error carries the numeric status code. -/
theorem backendError_missing_status_code :
    (continueTextConversation (Except.ok resp500)).1 =
      Except.error { name := "Error", message := "Groq API error: Internal Server Error" } ∧
    (continueTextConversation (Except.ok resp500)).2 =
      ["Error calling Groq API: Groq API error: Internal Server Error"] ∧
    strContains "Groq API error: Internal Server Error" "500" = false ∧
    strContains "Error calling Groq API: Groq API error: Internal Server Error"
      "upstream exploded" = false := by
  refine ⟨rfl, rfl, by decide, by decide⟩

/-- C2 amended: for every non-2xx response, submitQuery logs the thrown error
and fails with an Error whose message is the text Groq API error followed by
the status text only; the response body is never read (the outcome is
independent of it) and at most one request is sent (no retry). -/
theorem backendError_statusText_only (r : HttpResponse) (h : r.ok = false) :
    (continueTextConversation (Except.ok r)).1 =
      Except.error { name := "Error", message := "Groq API error: " ++ r.statusText } ∧
    (continueTextConversation (Except.ok r)).2 =
      ["Error calling Groq API: " ++ ("Groq API error: " ++ r.statusText)] ∧
    (∀ b : String,
      continueTextConversation (Except.ok
        { status := r.status, statusText := r.statusText, bodyText := b, json := r.json }) =
      continueTextConversation (Except.ok r)) ∧
    (∀ (u mo : String) (msgs : List Message), (chatRequestsSent u mo msgs).length ≤ 1) := by
  have hb : ∀ b : String,
      HttpResponse.ok { status := r.status, statusText := r.statusText, bodyText := b,
                        json := r.json } = false := by
    intro b; exact h
  refine ⟨?_, ?_, ?_, ?_⟩
  · simp [continueTextConversation, handleChatResponse, h]
  · simp [continueTextConversation, handleChatResponse, h]
  · intro b
    simp [continueTextConversation, handleChatResponse, h, hb b]
  · intro u mo msgs
    unfold chatRequestsSent
    cases chatRequest u mo msgs <;> simp

/-- Witness for backendError_statusText_only at the concrete 500 response. -/
theorem backendError_statusText_only_witness :
    (continueTextConversation (Except.ok resp500)).2 =
      ["Error calling Groq API: " ++ ("Groq API error: " ++ resp500.statusText)] :=
  (backendError_statusText_only resp500 rfl).2.1

/-- C7 counterexample: at a concrete 2xx response whose body carries
success = false together with a backend-supplied error message, submitQuery
does not fail: it returns the response field of the body, and in particular
does not produce the backend-supplied error. -/
theorem successFlag_ignored :
    handleChatResponse respSuccessFalse = Except.ok (some "ignored result") ∧
    handleChatResponse respSuccessFalse ≠
      Except.error { name := "Error", message := "permission denied" } := by
  constructor
  · rfl
  · intro hcontra
    rw [show handleChatResponse respSuccessFalse = Except.ok (some "ignored result") from rfl]
      at hcontra
    exact Except.noConfusion hcontra

/-- C7 amended: for every 2xx response whose body parses, submitQuery returns
the response field of the body unconditionally; the success flag and the
answer and error fields are never consulted. -/
theorem chatResponse_returns_response_field (r : HttpResponse) (body : ChatBody)
    (hok : r.ok = true) (hjson : r.json = Except.ok body) :
    handleChatResponse r = Except.ok body.response := by
  simp [handleChatResponse, hok, hjson]

/-- Witness for chatResponse_returns_response_field at the concrete response
whose body carries success = false. -/
theorem chatResponse_returns_response_field_witness :
    handleChatResponse respSuccessFalse = Except.ok (some "ignored result") :=
  chatResponse_returns_response_field respSuccessFalse
    { response := some "ignored result", success := some false,
      error := some "permission denied", answer := some "the answer" } rfl rfl

/-- C4: evaluation of the stop scenario on the code. With response a b c d
and the user pressing stop after two words have been revealed: abort() is
called on the controller, yet the network request is never aborted (the fetch
is created without the signal), the reveal loop keeps appending words after
the stop (the display is nonempty again at the end although handleStop
cleared it), and the conversation records the full response instead of the
stop marker. This contradicts the claimed cancellation behavior. -/
theorem stop_ineffective_mid_reveal :
    (runEvents (splitSp ("a b c d".toList)) (stopAfter 4 2) initialReveal).ctrlAborted
        = true ∧
    (runEvents (splitSp ("a b c d".toList)) (stopAfter 4 2) initialReveal).fetchAborted
        = false ∧
    (runEvents (splitSp ("a b c d".toList)) (stopAfter 4 2) initialReveal).streaming
        ≠ [] ∧
    submitAfterReveal [{ role := Role.user, content := "q" }] ("a b c d".toList)
        (runEvents (splitSp ("a b c d".toList)) (stopAfter 4 2) initialReveal) =
      [{ role := Role.user, content := "q" },
       { role := Role.assistant, content := "a b c d" }] ∧
    ("a b c d" : String) ≠ stopMarker := by
  refine ⟨by decide, by decide, by decide, rfl, by decide⟩

end ChatBridge
